import Mathlib

/-!
Verification of the convenience-store order-recommendation system.

The frontend component `OrderRecommendations.tsx` is embedded directly:
`OrderItem`, `updateQuantity`, `handleQuantityInput`, `totalCost`, and the
execute-click flow.  The backend pipeline (Analysis Stage, Inventory
Assessment, Decision Stage, Aggregator, Lifecycle Manager, Scheduler) is not
present in the repository sources, so those parts are modelled from the
specification, with each such definition marked `Modelled from the spec:`.
Quantities, stocks and prices are embedded as `Int` (JavaScript numbers used
as integers by this code); the day-over-day sales delta uses `ℚ`.
-/

/-- The `OrderItem` record type of `OrderRecommendations.tsx` (lines 8-18). -/
structure OrderItem where
  id : Int
  product_name : String
  current_stock : Int
  safe_stock : Int
  order_quantity : Int
  unit_price : Int
  total_cost : Int
  reason : String
  priority : String
deriving Repr, DecidableEq

/-- `updateQuantity` of `OrderRecommendations.tsx` (lines 74-85): rejects a
negative quantity by returning the list unchanged; otherwise maps over the
items, and for the item whose `id` equals `itemId` sets `order_quantity` to
`newQuantity` and `total_cost` to `unit_price * newQuantity`. -/
def updateQuantity (items : List OrderItem) (itemId : Int) (newQuantity : Int) :
    List OrderItem :=
  if newQuantity < 0 then items
  else items.map (fun item =>
    if item.id = itemId then
      { item with order_quantity := newQuantity,
                  total_cost := item.unit_price * newQuantity }
    else item)

/-- The quantity-input handler of `OrderRecommendations.tsx` (line 444):
`onChange={(e) => updateQuantity(item.id, parseInt(e.target.value) || 0)}`.
A non-numeric input parses to `NaN`, which `|| 0` coerces to `0` (and a
parse result of `0` stays `0`); the parse outcome is embedded as
`Option Int`, `none` standing for `NaN`. -/
def handleQuantityInput (items : List OrderItem) (itemId : Int)
    (parsed : Option Int) : List OrderItem :=
  updateQuantity items itemId (parsed.getD 0)

/-- `totalCost` of `OrderRecommendations.tsx` (line 185):
`orderItems.reduce((sum, item) => sum + item.total_cost, 0)`. -/
def totalCost (items : List OrderItem) : Int :=
  items.foldl (fun sum item => sum + item.total_cost) 0

/-- The shortfall displayed by `OrderRecommendations.tsx` (line 420):
`Math.max(0, item.safe_stock - item.current_stock)`. -/
def shortfall (safe_stock current_stock : Int) : Int :=
  max 0 (safe_stock - current_stock)

/-- Modelled from the spec: the Inventory Assessment Stage is not in the
repository sources; §4.2 says a product is flagged exactly when its
shortfall is positive. -/
def flagged (safe_stock current_stock : Int) : Bool :=
  shortfall safe_stock current_stock > 0

/-- Claim C1: after `updateQuantity(itemId, newQuantity)` with
`newQuantity ≥ 0`, every updated item whose id equals `itemId` satisfies
`total_cost = unit_price * newQuantity` — no stale totals. -/
theorem c1_no_stale_totals (items : List OrderItem) (itemId newQuantity : Int)
    (hq : 0 ≤ newQuantity) :
    ∀ item ∈ updateQuantity items itemId newQuantity,
      item.id = itemId → item.total_cost = item.unit_price * newQuantity := by
  intro item hmem hid
  unfold updateQuantity at hmem
  rw [if_neg (not_lt.mpr hq)] at hmem
  rcases List.mem_map.mp hmem with ⟨orig, _, heq⟩
  by_cases h : orig.id = itemId
  · simp only [h, if_pos] at heq
    subst heq
    rfl
  · simp only [if_neg h] at heq
    subst heq
    exact absurd hid h

/-- Witness for C1 at a concrete item list: the updated cola item carries
the freshly recomputed total. -/
theorem c1_no_stale_totals_witness :
    (⟨1, "cola", 2, 10, 3, 1500, 4500, "below threshold", "medium"⟩ :
        OrderItem).total_cost =
      (⟨1, "cola", 2, 10, 3, 1500, 4500, "below threshold", "medium"⟩ :
        OrderItem).unit_price * 3 :=
  c1_no_stale_totals
    [⟨1, "cola", 2, 10, 8, 1500, 12000, "below threshold", "medium"⟩] 1 3
    (by decide)
    ⟨1, "cola", 2, 10, 3, 1500, 4500, "below threshold", "medium"⟩
    (by decide) rfl

/-- Claim C9: `updateQuantity` is framed to the targeted item.  The list
keeps its length, every item whose id differs from `itemId` is unchanged,
and the targeted item keeps its `id`, `product_name`, `current_stock`,
`safe_stock`, `unit_price`, `reason` and `priority` fields. -/
theorem c9_edit_frame (items : List OrderItem) (itemId newQuantity : Int)
    (hq : 0 ≤ newQuantity) :
    (updateQuantity items itemId newQuantity).length = items.length ∧
    ∀ old new,
      (old, new) ∈ items.zip (updateQuantity items itemId newQuantity) →
        (old.id ≠ itemId → new = old) ∧
        new.id = old.id ∧ new.product_name = old.product_name ∧
        new.current_stock = old.current_stock ∧
        new.safe_stock = old.safe_stock ∧ new.unit_price = old.unit_price ∧
        new.reason = old.reason ∧ new.priority = old.priority := by
  unfold updateQuantity
  rw [if_neg (not_lt.mpr hq)]
  refine ⟨List.length_map items _, ?_⟩
  intro old new hmem
  have hzip : items.zip (items.map (fun item =>
      if item.id = itemId then
        { item with order_quantity := newQuantity,
                    total_cost := item.unit_price * newQuantity }
      else item)) = items.map (fun a => (a,
      if a.id = itemId then
        { a with order_quantity := newQuantity,
                 total_cost := a.unit_price * newQuantity }
      else a)) := by
    have := List.zip_map' (fun a : OrderItem => a) (fun a : OrderItem =>
      if a.id = itemId then
        { a with order_quantity := newQuantity,
                 total_cost := a.unit_price * newQuantity }
      else a) items
    simpa using this
  rw [hzip] at hmem
  rcases List.mem_map.mp hmem with ⟨a, _, heq⟩
  have hold : old = a := (congrArg Prod.fst heq).symm
  have hnew : new = (if a.id = itemId then
      { a with order_quantity := newQuantity,
               total_cost := a.unit_price * newQuantity }
    else a) := (congrArg Prod.snd heq).symm
  subst hold
  by_cases hid : old.id = itemId
  · rw [if_pos hid] at hnew
    subst hnew
    exact ⟨fun hne => absurd hid hne, rfl, rfl, rfl, rfl, rfl, rfl, rfl⟩
  · rw [if_neg hid] at hnew
    subst hnew
    exact ⟨fun _ => rfl, rfl, rfl, rfl, rfl, rfl, rfl, rfl⟩

/-- Witness for C9 at a concrete two-item list: the list keeps its length,
the non-targeted cola item is returned unchanged, and the updated ramen
item keeps the targeted item's descriptive fields. -/
theorem c9_edit_frame_witness :
    (updateQuantity
        [⟨1, "cola", 2, 10, 8, 1500, 12000, "below threshold", "medium"⟩,
         ⟨2, "ramen", 0, 5, 5, 900, 4500, "stockout", "high"⟩] 2 7).length = 2 ∧
    (⟨1, "cola", 2, 10, 8, 1500, 12000, "below threshold", "medium"⟩ :
        OrderItem) =
      ⟨1, "cola", 2, 10, 8, 1500, 12000, "below threshold", "medium"⟩ ∧
    ((⟨2, "ramen", 0, 5, 7, 900, 6300, "stockout", "high"⟩ : OrderItem).id =
        (⟨2, "ramen", 0, 5, 5, 900, 4500, "stockout", "high"⟩ : OrderItem).id ∧
      (⟨2, "ramen", 0, 5, 7, 900, 6300, "stockout", "high"⟩ :
          OrderItem).product_name =
        (⟨2, "ramen", 0, 5, 5, 900, 4500, "stockout", "high"⟩ :
          OrderItem).product_name ∧
      (⟨2, "ramen", 0, 5, 7, 900, 6300, "stockout", "high"⟩ :
          OrderItem).current_stock =
        (⟨2, "ramen", 0, 5, 5, 900, 4500, "stockout", "high"⟩ :
          OrderItem).current_stock ∧
      (⟨2, "ramen", 0, 5, 7, 900, 6300, "stockout", "high"⟩ :
          OrderItem).safe_stock =
        (⟨2, "ramen", 0, 5, 5, 900, 4500, "stockout", "high"⟩ :
          OrderItem).safe_stock ∧
      (⟨2, "ramen", 0, 5, 7, 900, 6300, "stockout", "high"⟩ :
          OrderItem).unit_price =
        (⟨2, "ramen", 0, 5, 5, 900, 4500, "stockout", "high"⟩ :
          OrderItem).unit_price ∧
      (⟨2, "ramen", 0, 5, 7, 900, 6300, "stockout", "high"⟩ :
          OrderItem).reason =
        (⟨2, "ramen", 0, 5, 5, 900, 4500, "stockout", "high"⟩ :
          OrderItem).reason ∧
      (⟨2, "ramen", 0, 5, 7, 900, 6300, "stockout", "high"⟩ :
          OrderItem).priority =
        (⟨2, "ramen", 0, 5, 5, 900, 4500, "stockout", "high"⟩ :
          OrderItem).priority) :=
  ⟨(c9_edit_frame
      [⟨1, "cola", 2, 10, 8, 1500, 12000, "below threshold", "medium"⟩,
       ⟨2, "ramen", 0, 5, 5, 900, 4500, "stockout", "high"⟩] 2 7 (by decide)).1,
   ((c9_edit_frame
      [⟨1, "cola", 2, 10, 8, 1500, 12000, "below threshold", "medium"⟩,
       ⟨2, "ramen", 0, 5, 5, 900, 4500, "stockout", "high"⟩] 2 7 (by decide)).2
      ⟨1, "cola", 2, 10, 8, 1500, 12000, "below threshold", "medium"⟩
      ⟨1, "cola", 2, 10, 8, 1500, 12000, "below threshold", "medium"⟩
      (by decide)).1 (by decide),
   ((c9_edit_frame
      [⟨1, "cola", 2, 10, 8, 1500, 12000, "below threshold", "medium"⟩,
       ⟨2, "ramen", 0, 5, 5, 900, 4500, "stockout", "high"⟩] 2 7 (by decide)).2
      ⟨2, "ramen", 0, 5, 5, 900, 4500, "stockout", "high"⟩
      ⟨2, "ramen", 0, 5, 7, 900, 6300, "stockout", "high"⟩
      (by decide)).2⟩

/-- Claim C3: the computed shortfall equals `max(0, safe_stock −
current_stock)`, is never negative, and a product is flagged exactly when
its shortfall is positive, so shortfall zero means not flagged. -/
theorem c3_shortfall_nonneg_flag (ss cs : Int) :
    shortfall ss cs = max 0 (ss - cs) ∧ 0 ≤ shortfall ss cs ∧
    (flagged ss cs = true ↔ 0 < shortfall ss cs) ∧
    (shortfall ss cs = 0 → flagged ss cs = false) := by
  refine ⟨rfl, le_max_left 0 (ss - cs), ?_, ?_⟩
  · simp [flagged]
  · intro h
    simp [flagged, h]

/-- The priority tier of a RecommendationItem (spec §3). -/
inductive Priority where
  | low
  | medium
  | high
deriving DecidableEq, Repr

/-- Modelled from the spec: the Decision Stage is not in the repository
sources; §4.3 assigns `high` when `current_stock == 0`, else `medium` when
shortfall ≥ 50% of `safe_stock` (as integers: `2 * shortfall ≥ safe_stock`),
else `low`. -/
def assignPriority (current_stock safe_stock : Int) : Priority :=
  if current_stock = 0 then Priority.high
  else if safe_stock ≤ 2 * shortfall safe_stock current_stock then
    Priority.medium
  else Priority.low

/-- Claim C5: for a flagged product with nonnegative stock, priority is a
total deterministic function of `current_stock` and `safe_stock`: `high`
exactly at stockout, `medium` exactly when stock is positive and the
shortfall is at least half the safe stock, `low` otherwise; in particular
stock 4 of safe stock 10 is `medium` and stock 8 of safe stock 10 is
`low`. -/
theorem c5_priority_assignment (cs ss : Int) (h0 : 0 ≤ cs)
    (_hf : flagged ss cs = true) :
    (assignPriority cs ss = Priority.high ↔ cs = 0) ∧
    (assignPriority cs ss = Priority.medium ↔
      0 < cs ∧ ss ≤ 2 * shortfall ss cs) ∧
    (assignPriority cs ss = Priority.low ↔
      0 < cs ∧ 2 * shortfall ss cs < ss) ∧
    assignPriority 4 10 = Priority.medium ∧
    assignPriority 8 10 = Priority.low := by
  have hcs : cs = 0 ∨ 0 < cs := h0.eq_or_lt.imp Eq.symm id
  refine ⟨?_, ?_, ?_, by decide, by decide⟩ <;>
    unfold assignPriority <;> split_ifs with h1 h2 <;> simp_all

/-- Witness for C5 at stock 4, safe stock 10. -/
theorem c5_priority_assignment_witness :
    (assignPriority 4 10 = Priority.high ↔ (4 : Int) = 0) ∧
    (assignPriority 4 10 = Priority.medium ↔
      (0 : Int) < 4 ∧ (10 : Int) ≤ 2 * shortfall 10 4) ∧
    (assignPriority 4 10 = Priority.low ↔
      (0 : Int) < 4 ∧ 2 * shortfall 10 4 < 10) ∧
    assignPriority 4 10 = Priority.medium ∧
    assignPriority 8 10 = Priority.low :=
  c5_priority_assignment 4 10 (by decide) (by decide)

/-- Counterexample to Claim C4 as stated: a non-numeric quantity input
(`parseInt` yields `NaN`, embedded as `none`) is not rejected — the
handler coerces it to `0` and changes the targeted item, so the item list
is not left as it was before the attempt. -/
theorem c4_counterexample :
    handleQuantityInput
        [⟨1, "cola", 2, 10, 5, 1500, 7500, "below threshold", "medium"⟩]
        1 none ≠
      [⟨1, "cola", 2, 10, 5, 1500, 7500, "below threshold", "medium"⟩] := by
  decide

/-- Claim C4 (amended): an edit with a negative quantity is rejected and
every item's fields are left exactly as before the attempt; a non-numeric
input is not rejected but coerced to quantity `0`, setting the targeted
item's `order_quantity` and `total_cost` to `0`. -/
theorem c4_amended_invalid_edit (items : List OrderItem) (itemId q : Int)
    (hq : q < 0) :
    updateQuantity items itemId q = items ∧
    ∀ item ∈ handleQuantityInput items itemId none,
      item.id = itemId → item.order_quantity = 0 ∧ item.total_cost = 0 := by
  refine ⟨by unfold updateQuantity; rw [if_pos hq], ?_⟩
  intro item hmem hid
  unfold handleQuantityInput updateQuantity at hmem
  simp only [Option.getD_none] at hmem
  rw [if_neg (by omega : ¬(0 : Int) < 0)] at hmem
  rcases List.mem_map.mp hmem with ⟨orig, _, heq⟩
  by_cases h : orig.id = itemId
  · rw [if_pos h] at heq
    subst heq
    exact ⟨rfl, mul_zero orig.unit_price⟩
  · rw [if_neg h] at heq
    subst heq
    exact absurd hid h

/-- Witness for the amended C4 at quantity `-2` and a concrete item: the
negative edit changes nothing, and the item produced by a non-numeric
input has quantity and total `0`. -/
theorem c4_amended_invalid_edit_witness :
    updateQuantity
        [⟨1, "cola", 2, 10, 5, 1500, 7500, "below threshold", "medium"⟩]
        1 (-2) =
      [⟨1, "cola", 2, 10, 5, 1500, 7500, "below threshold", "medium"⟩] ∧
    (⟨1, "cola", 2, 10, 0, 1500, 0, "below threshold", "medium"⟩ :
        OrderItem).order_quantity = 0 ∧
    (⟨1, "cola", 2, 10, 0, 1500, 0, "below threshold", "medium"⟩ :
        OrderItem).total_cost = 0 :=
  ⟨(c4_amended_invalid_edit
      [⟨1, "cola", 2, 10, 5, 1500, 7500, "below threshold", "medium"⟩]
      1 (-2) (by decide)).1,
   (c4_amended_invalid_edit
      [⟨1, "cola", 2, 10, 5, 1500, 7500, "below threshold", "medium"⟩]
      1 (-2) (by decide)).2
     ⟨1, "cola", 2, 10, 0, 1500, 0, "below threshold", "medium"⟩
     (by decide) rfl⟩

/-- Recommendation lifecycle status (spec §3/§4.5). -/
inductive RecStatus where
  | pending
  | executed
  | cancelled
deriving DecidableEq, Repr

/-- The RecommendationItem record of spec §3 (the backend entity is not in
the repository sources; fields follow the spec's data model, timestamps
omitted). -/
structure RecommendationItem where
  id : Int
  product_id : Int
  current_stock_snapshot : Int
  safe_stock_snapshot : Int
  order_quantity : Int
  unit_price_snapshot : Int
  total_cost : Int
  priority : Priority
  reason : String
deriving DecidableEq, Repr

/-- Sum of the items' `total_cost` values (spec §3:
`total_cost = sum(item.total_cost)`). -/
def sumCost (items : List RecommendationItem) : Int :=
  items.foldl (fun sum it => sum + it.total_cost) 0

/-- The Recommendation record of spec §3 (timestamps omitted). -/
structure Recommendation where
  id : Int
  total_items : Int
  total_cost : Int
  status : RecStatus
  items : List RecommendationItem
deriving DecidableEq, Repr

/-- The Lifecycle Manager error taxonomy used by the claims (spec §7). -/
inductive LMError where
  | InvalidState
  | InvalidQuantity
  | ReferentialFailure
deriving DecidableEq, Repr

/-- Modelled from the spec: the Recommendation Aggregator (§4.4) is not in
the repository sources; it creates exactly one `pending` Recommendation with
`total_items = count(items)` and `total_cost = sum(item.total_cost)`, and
aborts (here `none`) when the Decision Stage produced zero items. -/
def aggregate (rid : Int) (items : List RecommendationItem) :
    Option Recommendation :=
  if items.isEmpty then none
  else some ⟨rid, (items.length : Int), sumCost items, RecStatus.pending, items⟩

/-- Modelled from the spec: `edit_item` of the Lifecycle Manager (§4.5) is
not in the repository sources; it is legal only while `pending`, requires
`new_quantity ≥ 0`, and recomputes the item's `total_cost` and the
Recommendation's `total_cost`. -/
def edit_item (r : Recommendation) (itemId newQuantity : Int) :
    Except LMError Recommendation :=
  if r.status ≠ RecStatus.pending then Except.error LMError.InvalidState
  else if newQuantity < 0 then Except.error LMError.InvalidQuantity
  else
    let items := r.items.map (fun it =>
      if it.id = itemId then
        { it with order_quantity := newQuantity,
                  total_cost := it.unit_price_snapshot * newQuantity }
      else it)
    Except.ok { r with items := items, total_cost := sumCost items }

/-- The aggregate-totals invariant of spec §3: `total_items` counts the
items and `total_cost` sums their totals. -/
def totalsAgree (r : Recommendation) : Prop :=
  r.total_items = (r.items.length : Int) ∧ r.total_cost = sumCost r.items

/-- Claim C6: a Recommendation's totals agree with its items — after
aggregation, and after every quantity edit the invariant is preserved. -/
theorem c6_totals_invariant (rid itemId q : Int)
    (items : List RecommendationItem) (r r2 : Recommendation) :
    (aggregate rid items = some r → totalsAgree r) ∧
    (totalsAgree r → edit_item r itemId q = Except.ok r2 → totalsAgree r2) := by
  constructor
  · intro hagg
    unfold aggregate at hagg
    split_ifs at hagg
    injection hagg with h
    subst h
    exact ⟨rfl, rfl⟩
  · intro hr hedit
    unfold edit_item at hedit
    split_ifs at hedit
    injection hedit with h
    subst h
    refine ⟨?_, rfl⟩
    simpa [List.length_map] using hr.1

/-- Witness for C6: the invariant holds for a concretely aggregated
Recommendation and for the result of a concrete quantity edit on it. -/
theorem c6_totals_invariant_witness :
    totalsAgree ⟨1, 1, 20000, RecStatus.pending,
      [⟨1, 101, 0, 20, 20, 1000, 20000, Priority.high, "stockout"⟩]⟩ ∧
    totalsAgree ⟨1, 1, 25000, RecStatus.pending,
      [⟨1, 101, 0, 20, 25, 1000, 25000, Priority.high, "stockout"⟩]⟩ :=
  ⟨(c6_totals_invariant 1 1 25
      [⟨1, 101, 0, 20, 20, 1000, 20000, Priority.high, "stockout"⟩]
      ⟨1, 1, 20000, RecStatus.pending,
        [⟨1, 101, 0, 20, 20, 1000, 20000, Priority.high, "stockout"⟩]⟩
      ⟨1, 1, 25000, RecStatus.pending,
        [⟨1, 101, 0, 20, 25, 1000, 25000, Priority.high, "stockout"⟩]⟩).1
      (by decide),
   (c6_totals_invariant 1 1 25
      [⟨1, 101, 0, 20, 20, 1000, 20000, Priority.high, "stockout"⟩]
      ⟨1, 1, 20000, RecStatus.pending,
        [⟨1, 101, 0, 20, 20, 1000, 20000, Priority.high, "stockout"⟩]⟩
      ⟨1, 1, 25000, RecStatus.pending,
        [⟨1, 101, 0, 20, 25, 1000, 25000, Priority.high, "stockout"⟩]⟩).2
      ⟨by decide, by decide⟩ rfl⟩

/-- The Product record of spec §3 (the Product Ledger is not in the
repository sources; category omitted). -/
structure Product where
  id : Int
  name : String
  current_stock : Int
  safe_stock : Int
  unit_price : Int
deriving DecidableEq, Repr

/-- The state touched by `execute`: the Product Ledger and one
Recommendation. -/
structure StoreState where
  products : List Product
  recommendation : Recommendation
deriving DecidableEq, Repr

/-- Modelled from the spec: the stock mutation of `execute` (§4.5) — for
every item, the corresponding Product's `current_stock` is incremented by
the item's `order_quantity`. -/
def applyItems (products : List Product) (items : List RecommendationItem) :
    List Product :=
  items.foldl (fun ps it => ps.map (fun p =>
    if p.id = it.product_id then
      { p with current_stock := p.current_stock + it.order_quantity }
    else p)) products

/-- Modelled from the spec: `execute` of the Lifecycle Manager (§4.5) is
not in the repository sources (the frontend `executeOrder`, lines 128-147,
only posts to it); legal only while `pending` — otherwise fails with
`InvalidState` and performs no stock mutation; if some item's product no
longer exists the whole execution fails with `ReferentialFailure`;
otherwise every Product's stock is incremented and the status becomes
`executed`. -/
def execute (s : StoreState) : Except LMError StoreState :=
  if s.recommendation.status ≠ RecStatus.pending then Except.error LMError.InvalidState
  else if s.recommendation.items.all (fun it => s.products.any (fun p => p.id = it.product_id)) then
    Except.ok { products := applyItems s.products s.recommendation.items,
                recommendation := { s.recommendation with status := RecStatus.executed } }
  else Except.error LMError.ReferentialFailure

/-- Stock of the product with the given id, `none` when absent. -/
def stockOf (products : List Product) (pid : Int) : Option Int :=
  (products.find? (fun p => p.id = pid)).map (fun p => p.current_stock)

/-- Total quantity the items order for one product id. -/
def qtyFor (items : List RecommendationItem) (pid : Int) : Int :=
  (items.map (fun it =>
    if it.product_id = pid then it.order_quantity else 0)).sum

/-- One increment step of `applyItems` adds the item's quantity to exactly
the product ids it references, as seen through `stockOf`. -/
theorem stockOf_incr_step (ps : List Product) (it : RecommendationItem)
    (pid : Int) :
    stockOf (ps.map (fun p =>
        if p.id = it.product_id then
          { p with current_stock := p.current_stock + it.order_quantity }
        else p)) pid =
      (stockOf ps pid).map (fun st =>
        st + if it.product_id = pid then it.order_quantity else 0) := by
  unfold stockOf
  rw [List.find?_map]
  have hpred : ((fun p : Product => decide (p.id = pid)) ∘ (fun p =>
      if p.id = it.product_id then
        { p with current_stock := p.current_stock + it.order_quantity }
      else p)) = (fun p : Product => decide (p.id = pid)) := by
    funext p
    by_cases h : p.id = it.product_id
    · simp [h]
    · simp [h]
  rw [hpred]
  cases hfind : ps.find? (fun p => decide (p.id = pid)) with
  | none => simp
  | some p =>
    have hp : p.id = pid := by
      have := List.find?_some hfind
      simpa using this
    by_cases h : p.id = it.product_id
    · have : it.product_id = pid := h ▸ hp
      simp [Option.map_some, h, this]
    · have : ¬ it.product_id = pid := fun he => h (hp.trans he.symm)
      simp [Option.map_some, h, this]

/-- `applyItems` changes each product's stock by exactly the total quantity
the items order for its id. -/
theorem stockOf_applyItems (items : List RecommendationItem)
    (ps : List Product) (pid : Int) :
    stockOf (applyItems ps items) pid =
      (stockOf ps pid).map (fun st => st + qtyFor items pid) := by
  induction items generalizing ps with
  | nil =>
    cases h : stockOf ps pid <;> simp [applyItems, qtyFor, h]
  | cons it its ih =>
    have hstep := stockOf_incr_step ps it pid
    have : applyItems ps (it :: its) =
        applyItems (ps.map (fun p =>
          if p.id = it.product_id then
            { p with current_stock := p.current_stock + it.order_quantity }
          else p)) its := rfl
    rw [this, ih, hstep]
    cases h : stockOf ps pid with
    | none => simp
    | some st =>
      simp only [Option.map_some']
      congr 1
      simp [qtyFor]
      ring

/-- The state a caller holds after a Lifecycle Manager call: the returned
state on success, the prior state when the call fails (spec §7: execution
failures leave state exactly as before the attempt). -/
def stateAfter (s : StoreState) (r : Except LMError StoreState) : StoreState :=
  match r with
  | Except.ok s2 => s2
  | Except.error _ => s

/-- Claim C2: `execute` is exactly-once.  On a `pending` Recommendation all
of whose items reference existing products, the first call succeeds,
increments each referenced Product's stock by the items' order quantities
and sets the status to `executed`; calling `execute` again on the resulting
state fails with `InvalidState` and leaves the state as it was, so after
two calls the stock has changed by the item quantities exactly once. -/
theorem c2_execute_exactly_once (s : StoreState)
    (hp : s.recommendation.status = RecStatus.pending)
    (href : s.recommendation.items.all
      (fun it => s.products.any (fun p => p.id = it.product_id)) = true) :
    execute s = Except.ok (stateAfter s (execute s)) ∧
    (stateAfter s (execute s)).recommendation.status = RecStatus.executed ∧
    (stateAfter s (execute s)).recommendation.items =
      s.recommendation.items ∧
    (∀ pid, stockOf (stateAfter s (execute s)).products pid =
      (stockOf s.products pid).map (fun st =>
        st + qtyFor s.recommendation.items pid)) ∧
    execute (stateAfter s (execute s)) = Except.error LMError.InvalidState ∧
    stateAfter (stateAfter s (execute s))
        (execute (stateAfter s (execute s))) =
      stateAfter s (execute s) := by
  have hex : execute s =
      Except.ok { products := applyItems s.products s.recommendation.items,
                  recommendation :=
                    { s.recommendation with status := RecStatus.executed } } := by
    unfold execute
    rw [if_neg (by simp [hp]), if_pos href]
  have hsecond : execute
      { products := applyItems s.products s.recommendation.items,
        recommendation :=
          { s.recommendation with status := RecStatus.executed } } =
      Except.error LMError.InvalidState := by
    unfold execute
    rw [if_pos (by simp)]
  rw [hex]
  simp only [stateAfter]
  refine ⟨trivial, trivial, trivial, ?_, hsecond, ?_⟩
  · intro pid
    exact stockOf_applyItems s.recommendation.items s.products pid
  · rw [hsecond]

/-- Witness for C2: a concrete pending Recommendation over a one-product
ledger; the cola product's stock after the first call rose from 2 to 22,
and the second call is rejected without touching it. -/
theorem c2_execute_exactly_once_witness :
    (stateAfter ⟨[⟨101, "cola", 2, 10, 1500⟩],
        ⟨1, 1, 20000, RecStatus.pending,
          [⟨1, 101, 2, 10, 20, 1000, 20000, Priority.medium,
            "below threshold"⟩]⟩⟩
      (execute ⟨[⟨101, "cola", 2, 10, 1500⟩],
        ⟨1, 1, 20000, RecStatus.pending,
          [⟨1, 101, 2, 10, 20, 1000, 20000, Priority.medium,
            "below threshold"⟩]⟩⟩)).recommendation.status =
      RecStatus.executed ∧
    stockOf (stateAfter ⟨[⟨101, "cola", 2, 10, 1500⟩],
        ⟨1, 1, 20000, RecStatus.pending,
          [⟨1, 101, 2, 10, 20, 1000, 20000, Priority.medium,
            "below threshold"⟩]⟩⟩
      (execute ⟨[⟨101, "cola", 2, 10, 1500⟩],
        ⟨1, 1, 20000, RecStatus.pending,
          [⟨1, 101, 2, 10, 20, 1000, 20000, Priority.medium,
            "below threshold"⟩]⟩⟩)).products 101 =
      (stockOf [⟨101, "cola", 2, 10, 1500⟩] 101).map (fun st =>
        st + qtyFor
          [⟨1, 101, 2, 10, 20, 1000, 20000, Priority.medium,
            "below threshold"⟩] 101) ∧
    execute (stateAfter ⟨[⟨101, "cola", 2, 10, 1500⟩],
        ⟨1, 1, 20000, RecStatus.pending,
          [⟨1, 101, 2, 10, 20, 1000, 20000, Priority.medium,
            "below threshold"⟩]⟩⟩
      (execute ⟨[⟨101, "cola", 2, 10, 1500⟩],
        ⟨1, 1, 20000, RecStatus.pending,
          [⟨1, 101, 2, 10, 20, 1000, 20000, Priority.medium,
            "below threshold"⟩]⟩⟩)) =
      Except.error LMError.InvalidState :=
  ⟨(c2_execute_exactly_once
      ⟨[⟨101, "cola", 2, 10, 1500⟩],
        ⟨1, 1, 20000, RecStatus.pending,
          [⟨1, 101, 2, 10, 20, 1000, 20000, Priority.medium,
            "below threshold"⟩]⟩⟩ rfl (by decide)).2.1,
   (c2_execute_exactly_once
      ⟨[⟨101, "cola", 2, 10, 1500⟩],
        ⟨1, 1, 20000, RecStatus.pending,
          [⟨1, 101, 2, 10, 20, 1000, 20000, Priority.medium,
            "below threshold"⟩]⟩⟩ rfl (by decide)).2.2.2.1 101,
   (c2_execute_exactly_once
      ⟨[⟨101, "cola", 2, 10, 1500⟩],
        ⟨1, 1, 20000, RecStatus.pending,
          [⟨1, 101, 2, 10, 20, 1000, 20000, Priority.medium,
            "below threshold"⟩]⟩⟩ rfl (by decide)).2.2.2.2.1⟩

/-- The Scheduler's process-wide run state (spec §4.6/PipelineRun of §3):
whether a pipeline run is in flight, and how many runs have been started. -/
structure SchedulerState where
  inFlight : Bool
  runsStarted : Nat
deriving DecidableEq, Repr

/-- Outcome reported to a pipeline trigger (spec §7). -/
inductive TriggerResult where
  | started
  | alreadyRunning
deriving DecidableEq, Repr

/-- Modelled from the spec: the Scheduler (§4.6) is not in the repository
sources (the frontend `generateNewRecommendation`, lines 108-126, only
posts to it); a trigger while a run is in flight is rejected with
`AlreadyRunning` and changes nothing (not queued); otherwise the guard is
set and exactly one pipeline run starts. -/
def trigger (s : SchedulerState) : SchedulerState × TriggerResult :=
  if s.inFlight then (s, TriggerResult.alreadyRunning)
  else ({ inFlight := true, runsStarted := s.runsStarted + 1 },
        TriggerResult.started)

/-- Claim C7: the Scheduler is single-flight.  From an idle state, of two
triggers where the second arrives while the first run is in flight, exactly
the first starts a run, the second is rejected with `AlreadyRunning` and
changes no state, and exactly one run has been started in total. -/
theorem c7_single_flight (s : SchedulerState) (h : s.inFlight = false) :
    (trigger s).2 = TriggerResult.started ∧
    (trigger (trigger s).1).2 = TriggerResult.alreadyRunning ∧
    (trigger (trigger s).1).1 = (trigger s).1 ∧
    (trigger (trigger s).1).1.runsStarted = s.runsStarted + 1 := by
  simp [trigger, h]

/-- Witness for C7 from the idle zero-run state. -/
theorem c7_single_flight_witness :
    (trigger ⟨false, 0⟩).2 = TriggerResult.started ∧
    (trigger (trigger ⟨false, 0⟩).1).2 = TriggerResult.alreadyRunning ∧
    (trigger (trigger ⟨false, 0⟩).1).1 = (trigger ⟨false, 0⟩).1 ∧
    (trigger (trigger ⟨false, 0⟩).1).1.runsStarted = 0 + 1 :=
  c7_single_flight ⟨false, 0⟩ rfl

/-- Modelled from the spec: the Analysis Stage's day-over-day sales delta
(§4.1) is not in the repository sources (the frontend Dashboard only
displays the `sales_change` it receives); given the daily sales totals of
the date window, most recent first, the delta is the percent change of the
most recent day versus the prior day, and `0` when the prior day has zero
sales, avoiding division by zero. -/
def salesDelta (daily : List ℚ) : ℚ :=
  match daily with
  | recent :: prior :: _ =>
    if prior = 0 then 0 else (recent - prior) / prior * 100
  | _ => 0

/-- Claim C8: the day-over-day delta is a total function of the sales
history, equal to `0` whenever the prior day has zero sales, and otherwise
the exact percent change of the most recent day versus the prior day
(stated multiplied through by the prior-day total). -/
theorem c8_sales_delta_guarded (recent prior : ℚ) (rest : List ℚ) :
    (prior = 0 → salesDelta (recent :: prior :: rest) = 0) ∧
    (prior ≠ 0 →
      salesDelta (recent :: prior :: rest) * prior = (recent - prior) * 100) := by
  constructor
  · intro h
    simp [salesDelta, h]
  · intro h
    simp only [salesDelta, if_neg h]
    field_simp

/-- Witness for C8: a zero prior day yields delta 0, and a 10 → 12 history
yields a 20% delta. -/
theorem c8_sales_delta_guarded_witness :
    salesDelta [12, 0] = 0 ∧ salesDelta [12, 10] * 10 = (12 - 10) * 100 :=
  ⟨(c8_sales_delta_guarded 12 0 []).1 rfl,
   (c8_sales_delta_guarded 12 10 []).2 (by norm_num)⟩

/-- The `OrderRecommendations` component state relevant to the execute
flow: the displayed items, the quantities last persisted to the server,
the `hasChanges` and `showExecuteModal` flags, and the item quantities the
backend was asked to execute (if any).  `executedItems` records what an
execute request operates on: the server-persisted quantities. -/
structure UIState where
  items : List OrderItem
  savedItems : List OrderItem
  hasChanges : Bool
  showExecuteModal : Bool
  executedItems : Option (List OrderItem)
deriving DecidableEq, Repr

/-- The user interactions of the execute flow in `OrderRecommendations.tsx`. -/
inductive UIEvent where
  | edit (itemId newQuantity : Int)
  | save
  | executeClick
  | confirmExecute
  | closeModal
deriving DecidableEq, Repr

/-- One user interaction of `OrderRecommendations.tsx`.  While the
confirmation modal is open, its full-screen overlay (lines 482-569) blocks
the page behind it, so `edit`, `save` and `executeClick` are only
deliverable while the modal is closed, and `confirmExecute` / `closeModal`
only while it is open.  `edit` follows `updateQuantity` plus
`setHasChanges(true)` (lines 74-85, skipped for a negative quantity by the
early return); `save` follows `saveQuantityChanges` (lines 88-106:
persists the current quantities, `setHasChanges(false)`); `executeClick`
follows `handleExecuteClick` (lines 150-156: refuses while `hasChanges`,
else opens the modal); `confirmExecute` follows `executeOrder`
(lines 128-147: the backend executes the recommendation's persisted items,
then the modal closes). -/
def uiStep (s : UIState) (e : UIEvent) : UIState :=
  match e with
  | UIEvent.edit itemId newQuantity =>
    if s.showExecuteModal then s
    else if newQuantity < 0 then s
    else { s with items := updateQuantity s.items itemId newQuantity,
                  hasChanges := true }
  | UIEvent.save =>
    if s.showExecuteModal then s
    else { s with savedItems := s.items, hasChanges := false }
  | UIEvent.executeClick =>
    if s.showExecuteModal then s
    else if s.hasChanges then s
    else { s with showExecuteModal := true }
  | UIEvent.confirmExecute =>
    if s.showExecuteModal then
      { s with executedItems := some s.savedItems, showExecuteModal := false }
    else s
  | UIEvent.closeModal => { s with showExecuteModal := false }

/-- The state right after `loadOrderItems` (lines 57-71): items freshly
loaded from the server, `hasChanges` reset to `false`, modal closed. -/
def uiInit (items0 : List OrderItem) : UIState :=
  { items := items0, savedItems := items0, hasChanges := false,
    showExecuteModal := false, executedItems := none }

/-- The component state after a sequence of user interactions. -/
def uiRun (items0 : List OrderItem) (events : List UIEvent) : UIState :=
  events.foldl uiStep (uiInit items0)

/-- Auxiliary invariant of the execute flow: with no unsaved changes the
displayed items coincide with the persisted ones, and the confirmation
modal is only ever open with no unsaved changes. -/
def uiInv (s : UIState) : Prop :=
  (s.hasChanges = false → s.items = s.savedItems) ∧
  (s.showExecuteModal = true → s.hasChanges = false)

theorem uiInv_init (items0 : List OrderItem) : uiInv (uiInit items0) :=
  ⟨fun _ => rfl, fun h => by simp [uiInit] at h⟩

theorem uiInv_step (s : UIState) (e : UIEvent) (hs : uiInv s) :
    uiInv (uiStep s e) := by
  obtain ⟨h1, h2⟩ := hs
  cases e with
  | edit itemId newQuantity =>
    by_cases hm : s.showExecuteModal
    · simpa [uiStep, hm] using ⟨h1, h2⟩
    · by_cases hq : newQuantity < 0
      · simpa [uiStep, hm, hq] using ⟨h1, h2⟩
      · refine ⟨?_, ?_⟩ <;> simp [uiStep, hm, hq]
  | save =>
    by_cases hm : s.showExecuteModal
    · simpa [uiStep, hm] using ⟨h1, h2⟩
    · exact ⟨fun _ => by simp [uiStep, hm], fun h => by simp [uiStep, hm]⟩
  | executeClick =>
    by_cases hm : s.showExecuteModal
    · simpa [uiStep, hm] using ⟨h1, h2⟩
    · by_cases hc : s.hasChanges
      · simpa [uiStep, hm, hc] using ⟨h1, h2⟩
      · exact ⟨fun _ => by simpa [uiStep, hm, hc] using h1 (by simpa using hc),
               fun _ => by simpa [uiStep, hm, hc] using hc⟩
  | confirmExecute =>
    by_cases hm : s.showExecuteModal
    · refine ⟨fun _ => ?_, fun h => by simp [uiStep, hm] at h⟩
      simpa [uiStep, hm] using h1 (h2 hm)
    · simpa [uiStep, hm] using ⟨h1, h2⟩
  | closeModal =>
    exact ⟨fun h => h1 (by simpa [uiStep] using h),
           fun h => by simp [uiStep] at h⟩

theorem uiInv_run (items0 : List OrderItem) (events : List UIEvent) :
    uiInv (uiRun items0 events) := by
  unfold uiRun
  induction events generalizing items0 with
  | nil => exact uiInv_init items0
  | cons e es ih =>
    rw [List.foldl_cons]
    have h0 : uiInv (uiStep (uiInit items0) e) :=
      uiInv_step (uiInit items0) e (uiInv_init items0)
    clear ih
    generalize hgen : uiStep (uiInit items0) e = s at h0
    clear hgen
    induction es generalizing s with
    | nil => exact h0
    | cons f fs ihf =>
      rw [List.foldl_cons]
      exact ihf (uiStep s f) (uiInv_step s f h0)

/-- Claim C10: an execute request can never be issued while unsaved local
quantity edits exist.  In every reachable component state: when
`hasChanges` holds, `handleExecuteClick` leaves the modal closed and the
execute button is disabled; `saveQuantityChanges` resets `hasChanges`; and
whenever the confirmation modal is open, the displayed quantities equal
the persisted ones, so confirming executes exactly the last-saved
quantities. -/
theorem c10_no_execute_with_unsaved_edits (items0 : List OrderItem)
    (events : List UIEvent) :
    ((uiRun items0 events).hasChanges = true →
      (uiStep (uiRun items0 events) UIEvent.executeClick).showExecuteModal =
          (uiRun items0 events).showExecuteModal ∧
        (uiRun items0 events).hasChanges = true) ∧
    (uiStep (uiRun items0 events) UIEvent.save).hasChanges = false ∧
    ((uiRun items0 events).showExecuteModal = true →
      (uiRun items0 events).items = (uiRun items0 events).savedItems ∧
      (uiStep (uiRun items0 events) UIEvent.confirmExecute).executedItems =
        some (uiRun items0 events).items) := by
  obtain ⟨h1, h2⟩ := uiInv_run items0 events
  refine ⟨?_, ?_, ?_⟩
  · intro hc
    constructor
    · by_cases hm : (uiRun items0 events).showExecuteModal
      · simp [uiStep, hm]
      · simp [uiStep, hm, hc]
    · exact hc
  · by_cases hm : (uiRun items0 events).showExecuteModal
    · simp [uiStep, hm, h2 hm]
    · simp [uiStep, hm]
  · intro hm
    have hitems : (uiRun items0 events).items =
        (uiRun items0 events).savedItems := h1 (h2 hm)
    exact ⟨hitems, by simp [uiStep, hm, hitems]⟩

/-- Witness for C10 at concrete interaction traces: after one edit
(leaving unsaved changes) an execute click keeps the modal closed and the
button stays disabled, and saving resets `hasChanges`; after an execute
click from a clean state the open modal shows exactly the persisted
quantities and confirming executes them. -/
theorem c10_no_execute_with_unsaved_edits_witness :
    ((uiStep (uiRun [⟨1, "cola", 2, 10, 8, 1500, 12000, "below threshold",
          "medium"⟩] [UIEvent.edit 1 3]) UIEvent.executeClick).showExecuteModal =
        (uiRun [⟨1, "cola", 2, 10, 8, 1500, 12000, "below threshold",
          "medium"⟩] [UIEvent.edit 1 3]).showExecuteModal ∧
      (uiRun [⟨1, "cola", 2, 10, 8, 1500, 12000, "below threshold",
        "medium"⟩] [UIEvent.edit 1 3]).hasChanges = true) ∧
    (uiStep (uiRun [⟨1, "cola", 2, 10, 8, 1500, 12000, "below threshold",
        "medium"⟩] [UIEvent.edit 1 3]) UIEvent.save).hasChanges = false ∧
    ((uiRun [⟨1, "cola", 2, 10, 8, 1500, 12000, "below threshold",
        "medium"⟩] [UIEvent.executeClick]).items =
      (uiRun [⟨1, "cola", 2, 10, 8, 1500, 12000, "below threshold",
        "medium"⟩] [UIEvent.executeClick]).savedItems ∧
    (uiStep (uiRun [⟨1, "cola", 2, 10, 8, 1500, 12000, "below threshold",
        "medium"⟩] [UIEvent.executeClick]) UIEvent.confirmExecute).executedItems =
      some (uiRun [⟨1, "cola", 2, 10, 8, 1500, 12000, "below threshold",
        "medium"⟩] [UIEvent.executeClick]).items) :=
  ⟨(c10_no_execute_with_unsaved_edits
      [⟨1, "cola", 2, 10, 8, 1500, 12000, "below threshold", "medium"⟩]
      [UIEvent.edit 1 3]).1 (by decide),
   (c10_no_execute_with_unsaved_edits
      [⟨1, "cola", 2, 10, 8, 1500, 12000, "below threshold", "medium"⟩]
      [UIEvent.edit 1 3]).2.1,
   (c10_no_execute_with_unsaved_edits
      [⟨1, "cola", 2, 10, 8, 1500, 12000, "below threshold", "medium"⟩]
      [UIEvent.executeClick]).2.2 (by decide)⟩
